import Mathlib

/-!
Verification of the exr meta-data core (decode.rs, file/attributes.rs).

Bytes are modelled as `List Nat` (each value < 256 when produced by a writer).
Readers are state-passing functions `List Nat → Except E (α × List Nat)`;
writers return the emitted byte list (writing into a growable buffer cannot
fail in the source, except through validation, which is modelled with
`Except`). Machine integers are `Nat` / `Int` with explicit wrap-around
where the source relies on it. 32-bit floats are represented by their raw
little-endian bit pattern (a `Nat` below 2^32): none of the checked claims
inspects float arithmetic, only serialized bytes and sizes.
-/

namespace Exr

/-! ## Byte primitives (component C1 of the spec) -/

/-- Modelled from the spec: io.rs is not under src/. Spec 4.1: all multi-byte
integers are little-endian; u8 occupies one byte. Writing a u8 emits its
value (the source type guarantees the value is below 256; `% 256` makes the
wrap explicit). -/
def writeU8 (v : Nat) : List Nat :=
  [v % 256]

/-- Modelled from the spec: io.rs is not under src/. Spec 4.1: u32 is four
little-endian bytes. -/
def writeU32 (v : Nat) : List Nat :=
  [v % 256, v / 256 % 256, v / 65536 % 256, v / 16777216 % 256]

/-- Modelled from the spec: io.rs is not under src/. Spec 4.1: i32 is four
little-endian bytes, two us complement. -/
def writeI32 (v : Int) : List Nat :=
  writeU32 ((v % (4294967296 : Int)).toNat)

/-- file/validity.rs `Value` (not under src/): modelled from the spec,
spec 4.8, with the constructors used by file/attributes.rs. -/
inductive Value where
  | Text : Value
  | Enum : String → Value
  | Attribute : String → Value
  | TypeName : String → Value
  deriving DecidableEq

/-- file/validity.rs `Required` (not under src/): modelled from the spec,
spec 4.8: `Min(n) | Max(n) | Range{min,max} | Exact(s) | OneOf([s])`. -/
inductive Required where
  | Min : Nat → Required
  | Max : Nat → Required
  | Range : Int → Int → Required
  | Exact : String → Required
  | OneOf : List String → Required
  deriving DecidableEq

/-- file/validity.rs `Invalid` (not under src/): modelled from the spec,
spec 4.8. `Invalid::Type` is renamed `TypeIs` (`Type` is a Lean keyword). -/
inductive Invalid where
  | Content : Value → Required → Invalid
  | Combination : List Value → Invalid
  | Missing : String → Invalid
  | TypeIs : Required → Invalid
  deriving DecidableEq

/-- file/validity.rs `Validity = Result<(), Invalid>`. -/
def Validity := Except Invalid Unit

/-- Errors of the read path of file/attributes.rs (ReadError from the io
module, which is not under src/). Modelled from the spec: spec 4.1 and 7 name
an end-of-stream io error, the structured `Invalid` reports, and the
recoverable unknown-attribute error. -/
inductive ReadError where
  | Io : ReadError
  | Content : Invalid → ReadError
  | UnknownAttributeType : Nat → ReadError
  deriving DecidableEq

/-- Result of a write: the emitted bytes, or a validation failure
(writing into a byte buffer itself cannot fail). -/
def WriteResult := Except Invalid (List Nat)

/-! ## Text (file/attributes.rs) -/

/-- file/attributes.rs `Text`: a byte string (the null terminator is not
stored). -/
structure Text where
  bytes : List Nat
  deriving DecidableEq

/-- file/attributes.rs `Text::validate_bytes`. -/
def Text.validate_bytes (text : List Nat) (long_names : Option Bool) : Except Invalid Unit :=
  let is_valid : Bool :=
    !text.isEmpty && (match long_names with
      | some false => decide (text.length < 32)
      | some true => decide (text.length < 256)
      | none => true)
  if is_valid then .ok () else
    if text.isEmpty then .error (Invalid.Content .Text (.Min 1))
    -- the source unwraps long_names here; the branch is unreachable when
    -- long_names is none, because a non-empty text with no limit is valid
    else if long_names.getD false then .error (Invalid.Content .Text (.Max 255))
    else .error (Invalid.Content .Text (.Max 31))

/-- file/attributes.rs `Text::validate`. -/
def Text.validate (t : Text) (long_names : Option Bool) : Except Invalid Unit :=
  Text.validate_bytes t.bytes long_names

/-- file/attributes.rs `Text::write_unsized_bytes`: validate, then emit the
raw bytes (io write_u8_array emits the bytes unchanged). -/
def Text.write_unsized_bytes (bytes : List Nat) (long_names : Option Bool) : WriteResult :=
  match Text.validate_bytes bytes long_names with
  | .ok _ => .ok bytes
  | .error e => .error e

/-- file/attributes.rs `Text::read_null_terminated`: read bytes until a zero
byte; the zero byte is consumed and not stored. Running out of stream is an
io error. -/
def Text.read_null_terminated : List Nat → Except ReadError (Text × List Nat)
  | [] => .error .Io
  | b :: rest =>
    if b = 0 then .ok (⟨[]⟩, rest)
    else
      match Text.read_null_terminated rest with
      | .ok (t, r) => .ok (⟨b :: t.bytes⟩, r)
      | .error e => .error e

/-! ## ParsedText (file/attributes.rs) -/

/-- file/attributes.rs `kind::SCAN_LINE`. -/
def kindSCAN_LINE : List Nat := ("scanlineimage".toList.map Char.toNat)

/-- file/attributes.rs `kind::TILE`. -/
def kindTILE : List Nat := ("tiledimage".toList.map Char.toNat)

/-- file/attributes.rs `kind::DEEP_SCAN_LINE`. -/
def kindDEEP_SCAN_LINE : List Nat := ("deepscanline".toList.map Char.toNat)

/-- file/attributes.rs `kind::DEEP_TILE`. -/
def kindDEEP_TILE : List Nat := ("deeptile".toList.map Char.toNat)

/-- file/attributes.rs `ParsedText`. -/
inductive ParsedText where
  | ScanLine : ParsedText
  | Tile : ParsedText
  | DeepScanLine : ParsedText
  | DeepTile : ParsedText
  | Arbitrary : Text → ParsedText
  deriving DecidableEq

/-- file/attributes.rs `ParsedText::parse`: match the byte slice against the
four well-known kind strings. -/
def ParsedText.parse (text : Text) : ParsedText :=
  if text.bytes = kindSCAN_LINE then .ScanLine
  else if text.bytes = kindTILE then .Tile
  else if text.bytes = kindDEEP_SCAN_LINE then .DeepScanLine
  else if text.bytes = kindDEEP_TILE then .DeepTile
  else .Arbitrary text

/-- file/attributes.rs `ParsedText::to_text_bytes`. -/
def ParsedText.to_text_bytes : ParsedText → List Nat
  | .ScanLine => kindSCAN_LINE
  | .Tile => kindTILE
  | .DeepScanLine => kindDEEP_SCAN_LINE
  | .DeepTile => kindDEEP_TILE
  | .Arbitrary t => t.bytes

/-! ## RoundingMode (file/attributes.rs) -/

/-- file/attributes.rs `RoundingMode`. -/
inductive RoundingMode where
  | Down : RoundingMode
  | Up : RoundingMode
  deriving DecidableEq

/-- file/attributes.rs `RoundingMode::divide`: integer division, and for `Up`
add one when rust has been rounding down. -/
def RoundingMode.divide (m : RoundingMode) (dividend divisor : Nat) : Nat :=
  let result := dividend / divisor
  match m with
  | .Up => if result * divisor ≠ dividend then result + 1 else result
  | .Down => result

/-! ## More io read primitives used by file/attributes.rs -/

/-- Modelled from the spec: io.rs is not under src/. Reading one byte; an
empty stream is an end-of-stream io error. -/
def readU8 : List Nat → Except ReadError (Nat × List Nat)
  | [] => .error .Io
  | b :: rest => .ok (b, rest)

/-- Modelled from the spec: io.rs is not under src/. Spec 4.1: u32 is four
little-endian bytes. -/
def readU32 : List Nat → Except ReadError (Nat × List Nat)
  | b0 :: b1 :: b2 :: b3 :: rest =>
    .ok (b0 + 256 * b1 + 65536 * b2 + 16777216 * b3, rest)
  | _ => .error .Io

/-- Modelled from the spec: io.rs is not under src/. Spec 4.1: i32 is four
little-endian bytes, two us complement. -/
def readI32 (s : List Nat) : Except ReadError (Int × List Nat) :=
  match readU32 s with
  | .ok (n, rest) =>
    .ok (if n < 2147483648 then (n : Int) else (n : Int) - 4294967296, rest)
  | .error e => .error e

/-! ## KeyCode (file/attributes.rs) -/

/-- file/attributes.rs `KeyCode`: seven i32 fields. -/
structure KeyCode where
  film_manufacturer_code : Int
  film_type : Int
  film_roll_pfx : Int
  count : Int
  perforation_offset : Int
  perforations_per_frame : Int
  perforations_per_count : Int
  deriving DecidableEq

/-- file/attributes.rs `KeyCode::byte_size`: six times the size of an i32. -/
def KeyCode.byte_size (_ : KeyCode) : Nat :=
  6 * 4

/-- file/attributes.rs `KeyCode::write`: emits, in order,
film_manufacturer_code, film_type, film_roll_pfx, count,
perforation_offset and perforations_per_count
(the source does not write perforations_per_frame). -/
def KeyCode.write (k : KeyCode) : List Nat :=
  writeI32 k.film_manufacturer_code ++
  writeI32 k.film_type ++
  writeI32 k.film_roll_pfx ++
  writeI32 k.count ++
  writeI32 k.perforation_offset ++
  writeI32 k.perforations_per_count

/-- file/attributes.rs `KeyCode::read`: reads all seven i32 fields. -/
def KeyCode.read (s : List Nat) : Except ReadError (KeyCode × List Nat) := do
  let (film_manufacturer_code, s) ← readI32 s
  let (film_type, s) ← readI32 s
  let (film_roll_pfx, s) ← readI32 s
  let (count, s) ← readI32 s
  let (perforation_offset, s) ← readI32 s
  let (perforations_per_frame, s) ← readI32 s
  let (perforations_per_count, s) ← readI32 s
  return (⟨film_manufacturer_code, film_type, film_roll_pfx, count,
           perforation_offset, perforations_per_frame, perforations_per_count⟩, s)

/-! ## EnvironmentMap and LineOrder (file/attributes.rs) -/

/-- file/attributes.rs `EnvironmentMap`. -/
inductive EnvironmentMap where
  | LatitudeLongitude : EnvironmentMap
  | Cube : EnvironmentMap
  deriving DecidableEq

/-- file/attributes.rs `EnvironmentMap::byte_size`: the byte size of a u32,
which is four (spec 4.1). -/
def EnvironmentMap.byte_size (_ : EnvironmentMap) : Nat :=
  4

/-- file/attributes.rs `EnvironmentMap::write`: a single u8, 0 or 1. -/
def EnvironmentMap.write : EnvironmentMap → List Nat
  | .LatitudeLongitude => writeU8 0
  | .Cube => writeU8 1

/-- file/attributes.rs `LineOrder`. -/
inductive LineOrder where
  | IncreasingY : LineOrder
  | DecreasingY : LineOrder
  | RandomY : LineOrder
  deriving DecidableEq

/-- file/attributes.rs `LineOrder::byte_size`: the byte size of a u32,
which is four (spec 4.1). -/
def LineOrder.byte_size (_ : LineOrder) : Nat :=
  4

/-- file/attributes.rs `LineOrder::write`: a single u8, 0, 1 or 2. -/
def LineOrder.write : LineOrder → List Nat
  | .IncreasingY => writeU8 0
  | .DecreasingY => writeU8 1
  | .RandomY => writeU8 2

/-! ## TileDescription (file/attributes.rs) -/

/-- file/attributes.rs `LevelMode`. -/
inductive LevelMode where
  | One : LevelMode
  | MipMap : LevelMode
  | RipMap : LevelMode
  deriving DecidableEq

/-- file/attributes.rs `TileDescription`. The two size fields are u32
(always below 2^32 in the source). -/
structure TileDescription where
  x_size : Nat
  y_size : Nat
  level_mode : LevelMode
  rounding_mode : RoundingMode
  deriving DecidableEq

/-- The level-mode part of the mode byte of `TileDescription::write`. -/
def levelModeByte : LevelMode → Nat
  | .One => 0
  | .MipMap => 1
  | .RipMap => 2

/-- The rounding-mode part of the mode byte of `TileDescription::write`. -/
def roundingModeByte : RoundingMode → Nat
  | .Down => 0
  | .Up => 1

/-- The mode byte of `TileDescription::write`:
`level_mode + (rounding_mode * 16)`. -/
def tileModeByte (lm : LevelMode) (rm : RoundingMode) : Nat :=
  levelModeByte lm + roundingModeByte rm * 16

/-- file/attributes.rs `TileDescription::write`: x size, y size, then the
packed mode byte. -/
def TileDescription.write (t : TileDescription) : List Nat :=
  writeU32 t.x_size ++ writeU32 t.y_size ++
  writeU8 (tileModeByte t.level_mode t.rounding_mode)

/-- The level-mode match of `TileDescription::read`: 0, 1 and 2 are the
valid level modes, everything else is out of range. -/
def levelModeFromByte : Nat → Except ReadError LevelMode
  | 0 => .ok .One
  | 1 => .ok .MipMap
  | 2 => .ok .RipMap
  | _ => .error (.Content (Invalid.Content (.Enum "level mode") (.Range 0 2)))

/-- The rounding-mode match of `TileDescription::read`: 0 and 1 are the
valid rounding modes, everything else is out of range. -/
def roundingModeFromByte : Nat → Except ReadError RoundingMode
  | 0 => .ok .Down
  | 1 => .ok .Up
  | _ => .error (.Content (Invalid.Content (.Enum "rounding mode") (.Range 0 1)))

/-- file/attributes.rs `TileDescription::read`: the mode byte is split as
`mode & 0b00001111` (level mode, checked first) and `mode >> 4`
(rounding mode, checked second). -/
def TileDescription.read (s : List Nat) : Except ReadError (TileDescription × List Nat) :=
  match readU32 s with
  | .error e => .error e
  | .ok (x_size, s) =>
    match readU32 s with
    | .error e => .error e
    | .ok (y_size, s) =>
      match readU8 s with
      | .error e => .error e
      | .ok (mode, s) =>
        match levelModeFromByte (mode &&& 15) with
        | .error e => .error e
        | .ok level_mode =>
          match roundingModeFromByte (mode >>> 4) with
          | .error e => .error e
          | .ok rounding_mode => .ok (⟨x_size, y_size, level_mode, rounding_mode⟩, s)

/-! ## The remaining attribute payload types (file/attributes.rs)

Float payloads are represented by their raw little-endian bit patterns
(`Nat` below 2^32 or 2^64): the checked claims only concern serialized
bytes and sizes, never float arithmetic. -/

/-- file/attributes.rs `I32Box2`. -/
structure I32Box2 where
  x_min : Int
  y_min : Int
  x_max : Int
  y_max : Int
  deriving DecidableEq

/-- file/attributes.rs `F32Box2` (fields as f32 bit patterns). -/
structure F32Box2 where
  x_min : Nat
  y_min : Nat
  x_max : Nat
  y_max : Nat
  deriving DecidableEq

/-- file/attributes.rs `PixelType`. -/
inductive PixelType where
  | U32 : PixelType
  | F16 : PixelType
  | F32 : PixelType
  deriving DecidableEq

/-- file/attributes.rs `Channel`. -/
structure Channel where
  name : Text
  pixel_type : PixelType
  is_linear : Bool
  reserved : List Int
  x_sampling : Int
  y_sampling : Int
  deriving DecidableEq

/-- file/attributes.rs `Chromaticities` (fields as f32 bit patterns). -/
structure Chromaticities where
  red_x : Nat
  red_y : Nat
  green_x : Nat
  green_y : Nat
  blue_x : Nat
  blue_y : Nat
  white_x : Nat
  white_y : Nat
  deriving DecidableEq

/-- file/compress.rs `Compression` (not under src/): modelled from the spec,
spec 3: `Compression ∈ {None, RLE, ZIPS, ZIP, PIZ, PXR24, B44, B44A}`,
matching the variants used by file/attributes.rs. -/
inductive Compression where
  | None : Compression
  | RLE : Compression
  | ZIPS : Compression
  | ZIP : Compression
  | PIZ : Compression
  | PXR24 : Compression
  | B44 : Compression
  | B44A : Compression
  deriving DecidableEq

/-- file/attributes.rs `Preview`. -/
structure Preview where
  width : Nat
  height : Nat
  pixel_data : List Int
  deriving DecidableEq

/-- file/attributes.rs `AttributeValue`: the tagged union of attribute
payloads. -/
inductive AttributeValue where
  | I32Box2 : I32Box2 → AttributeValue
  | F32Box2 : F32Box2 → AttributeValue
  | ChannelList : List Channel → AttributeValue
  | Chromaticities : Chromaticities → AttributeValue
  | Compression : Compression → AttributeValue
  | F64 : Nat → AttributeValue
  | EnvironmentMap : EnvironmentMap → AttributeValue
  | F32 : Nat → AttributeValue
  | I32 : Int → AttributeValue
  | KeyCode : KeyCode → AttributeValue
  | LineOrder : LineOrder → AttributeValue
  | F32Matrix3x3 : List Nat → AttributeValue
  | F32Matrix4x4 : List Nat → AttributeValue
  | Preview : Preview → AttributeValue
  | Rational : Int → Nat → AttributeValue
  | Text : ParsedText → AttributeValue
  | TextVector : List Text → AttributeValue
  | TileDescription : TileDescription → AttributeValue
  | TimeCode : Nat → Nat → AttributeValue
  | I32Vec2 : Int → Int → AttributeValue
  | F32Vec2 : Nat → Nat → AttributeValue
  | I32Vec3 : Int → Int → Int → AttributeValue
  | F32Vec3 : Nat → Nat → Nat → AttributeValue
  deriving DecidableEq

/-! ## decode.rs: version word and offset table -/

/-- decode.rs `Error` (the `Panic` constructor models the panic raised by
the `.expect` call in `offset_table`, which is not a variant of the source
enum). -/
inductive DecodeError where
  | NotEXR : DecodeError
  | Invalid : String → DecodeError
  | Missing : String → DecodeError
  | UnknownAttributeType : Nat → DecodeError
  | IoError : DecodeError
  | CompressionError : DecodeError
  | NotSupported : String → DecodeError
  | Panic : String → DecodeError
  deriving DecidableEq

/-- file module `Version` record (not under src/): modelled from the spec,
spec 3 (version word) and the construction site in decode.rs `version`. -/
structure Version where
  file_format_version : Nat
  is_single_tile : Bool
  has_long_names : Bool
  has_deep_data : Bool
  has_multiple_parts : Bool
  deriving DecidableEq

/-- decode.rs `version`, applied to the 32-bit version word `w` (the raw
little-endian word; bit operations on the i32 act on these same bits). The
source masks the word with `0x000F` and reads flag bits 9 to 12. -/
def version (w : Nat) : Version :=
  { file_format_version := w &&& 0x000F
    is_single_tile := w.testBit 9
    has_long_names := w.testBit 10
    has_deep_data := w.testBit 11
    has_multiple_parts := w.testBit 12 }

/-- decode.rs `attribute` builds `Attribute { name, kind, value }`; the
record itself lives in the attributes module of that crate layout, which is
not under src/. Modelled from the spec, spec 3: an attribute is the triple
`(name, type_tag, value)`. -/
structure Attribute where
  name : Text
  kind : Text
  value : AttributeValue
  deriving DecidableEq

instance : Inhabited Attribute :=
  ⟨⟨⟨[]⟩, ⟨[]⟩, .I32 0⟩⟩

/-- file module `AttributeIndices` (not under src/): modelled from the spec,
spec 3 (required and conditionally required attributes) and the construction
site in decode.rs `header`: positions of the required attributes inside the
attribute list. -/
structure AttributeIndices where
  channels : Nat
  compression : Nat
  data_window : Nat
  display_window : Nat
  line_order : Nat
  pixel_aspect : Nat
  screen_window_center : Nat
  screen_window_width : Nat
  tiles : Option Nat
  name : Option Nat
  kind : Option Nat
  version : Option Nat
  chunk_count : Option Nat
  max_samples_per_pixel : Option Nat
  deriving DecidableEq

/-- file module `Header` (not under src/): modelled from the spec, spec 3:
the ordered attribute list plus the lookup indices. -/
structure Header where
  attributes : List Attribute
  indices : AttributeIndices
  deriving DecidableEq

/-- decode.rs `read_u64`: eight little-endian bytes. -/
def read_u64 : List Nat → Except DecodeError (Nat × List Nat)
  | b0 :: b1 :: b2 :: b3 :: b4 :: b5 :: b6 :: b7 :: rest =>
    .ok (b0 + 256 * b1 + 65536 * b2 + 16777216 * b3 +
         4294967296 * b4 + 1099511627776 * b5 +
         281474976710656 * b6 + 72057594037927936 * b7, rest)
  | _ => .error .IoError

/-- The reading loop of decode.rs `offset_table`: read `n` u64 offsets. -/
def read_u64s : Nat → List Nat → Except DecodeError (List Nat × List Nat)
  | 0, s => .ok ([], s)
  | n + 1, s =>
    match read_u64 s with
    | .ok (v, s) =>
      match read_u64s n s with
      | .ok (vs, s) => .ok (v :: vs, s)
      | .error e => .error e
    | .error e => .error e

/-- The rust cast `chunk_count as usize` on an i32 (64-bit target):
sign-extend and reinterpret, that is, wrap modulo 2^64. -/
def intAsUSize (c : Int) : Nat :=
  (c % (18446744073709551616 : Int)).toNat

/-- decode.rs `offset_table`: determine the entry count from the chunkCount
attribute when present (casting the i32 to usize); otherwise check the
types of dataWindow, tiles and compression and fail with `NotSupported`.
Then `Vec::with_capacity(entry_count)` and read that many u64 offsets.
`Vec::with_capacity` panics deterministically with capacity overflow when
the requested u64 capacity needs more than isize::MAX = 2^63 - 1 bytes,
that is when 8 * entry_count exceeds 2^63 - 1; this happens before any
offset is read (allocation failure for feasible sizes is not modelled).
Out-of-range attribute indices (a panic in the source) are modelled by
`List.getD` with the `Inhabited` default; every claim below uses in-range
indices. -/
def offset_table (header : Header) (s : List Nat) : Except DecodeError (List Nat × List Nat) :=
  match header.indices.chunk_count with
  | some chunk_count_index =>
    match (header.attributes.getD chunk_count_index default).value with
    | .I32 chunk_count =>
      let entry_count := intAsUSize chunk_count
      if 9223372036854775807 < 8 * entry_count then .error (.Panic "capacity overflow")
      else read_u64s entry_count s
    | _ => .error (.Invalid "chunkCount type")
  | none =>
    -- the source asserts (debug only) that the file is not multi-part here
    match (header.attributes.getD header.indices.data_window default).value with
    | .I32Box2 _ =>
      match header.indices.tiles with
      | some tiles_index =>
        match (header.attributes.getD tiles_index default).value with
        | .TileDescription _ =>
          match (header.attributes.getD header.indices.compression default).value with
          | .Compression _ =>
            .error (.NotSupported
              "computing chunk count by considering data_window, tiles, and compression")
          | _ => .error (.Invalid "compression type")
        | _ => .error (.Invalid "tileDesc type")
      | none => .error (.Panic "tiles missing, should have been checked")
    | _ => .error (.Invalid "dataWindow type")

/-- A header whose chunkCount attribute holds the i32 value -1. -/
def headerNegChunkCount : Header :=
  { attributes := [⟨⟨"chunkCount".toList.map Char.toNat⟩, ⟨"int".toList.map Char.toNat⟩, .I32 (-1)⟩]
    indices :=
      { channels := 0, compression := 0, data_window := 0, display_window := 0
        line_order := 0, pixel_aspect := 0, screen_window_center := 0
        screen_window_width := 0, tiles := none, name := none, kind := none
        version := none, chunk_count := some 0, max_samples_per_pixel := none } }

/-- A header whose chunkCount attribute holds the i32 value 2. -/
def headerChunkCountTwo : Header :=
  { attributes := [⟨⟨"chunkCount".toList.map Char.toNat⟩, ⟨"int".toList.map Char.toNat⟩, .I32 2⟩]
    indices :=
      { channels := 0, compression := 0, data_window := 0, display_window := 0
        line_order := 0, pixel_aspect := 0, screen_window_center := 0
        screen_window_width := 0, tiles := none, name := none, kind := none
        version := none, chunk_count := some 0, max_samples_per_pixel := none } }

/-- A single-part header without a chunkCount attribute: a 10 by 10 data
window, 4 by 4 tiles with a single level, no compression. The legacy tile
count formula of the claim gives ceil(10/4) * ceil(10/4) = 9 chunks. -/
def headerNoChunkCount : Header :=
  { attributes :=
      [⟨⟨"dataWindow".toList.map Char.toNat⟩, ⟨"box2i".toList.map Char.toNat⟩,
        .I32Box2 ⟨0, 0, 9, 9⟩⟩,
       ⟨⟨"tiles".toList.map Char.toNat⟩, ⟨"tiledesc".toList.map Char.toNat⟩,
        .TileDescription ⟨4, 4, .One, .Down⟩⟩,
       ⟨⟨"compression".toList.map Char.toNat⟩, ⟨"compression".toList.map Char.toNat⟩,
        .Compression .None⟩]
    indices :=
      { channels := 0, compression := 2, data_window := 0, display_window := 0
        line_order := 0, pixel_aspect := 0, screen_window_center := 0
        screen_window_width := 0, tiles := some 1, name := none, kind := none
        version := none, chunk_count := none, max_samples_per_pixel := none } }

/-! ## Helper lemmas -/

theorem upDivide_bounds (a b : Nat) (ha : 1 ≤ a) (hb : 1 ≤ b) :
    a ≤ RoundingMode.Up.divide a b * b ∧ (RoundingMode.Up.divide a b - 1) * b < a := by
  have hdm : b * (a / b) + a % b = a := Nat.div_add_mod a b
  have hml : a % b < b := Nat.mod_lt a hb
  rw [Nat.mul_comm] at hdm
  unfold RoundingMode.divide
  simp only
  by_cases h : a / b * b = a
  · rw [if_neg (by simpa using h)]
    refine ⟨le_of_eq h.symm, ?_⟩
    rw [Nat.sub_mul, Nat.one_mul, h]
    exact Nat.sub_lt ha hb
  · rw [if_pos (by simpa using h)]
    rw [Nat.add_mul, Nat.one_mul, Nat.add_sub_cancel]
    constructor
    · omega
    · omega

theorem readU32_writeU32 (n : Nat) (rest : List Nat) (hn : n < 4294967296) :
    readU32 (writeU32 n ++ rest) = .ok (n, rest) := by
  simp only [writeU32, List.cons_append, List.nil_append, readU32]
  congr 2
  omega

/-! ## Claims -/

/-- C7: RoundingMode.Down.divide is the integer quotient; Up.divide adds one
exactly when the divisor does not divide evenly; the Up result u satisfies
u * b ≥ a > (u - 1) * b for a, b ≥ 1; and the five concrete values from the
spec hold. -/
theorem C7_rounding_divide (d s a b : Nat) (_hs : 1 ≤ s) (ha : 1 ≤ a) (hb : 1 ≤ b) :
    RoundingMode.Down.divide d s = d / s ∧
    RoundingMode.Up.divide d s = (if s ∣ d then d / s else d / s + 1) ∧
    a ≤ RoundingMode.Up.divide a b * b ∧
    (RoundingMode.Up.divide a b - 1) * b < a ∧
    RoundingMode.Up.divide 8 5 = 2 ∧
    RoundingMode.Up.divide 100 49 = 3 ∧
    RoundingMode.Up.divide 10 2 = 5 ∧
    RoundingMode.Down.divide 8 5 = 1 ∧
    RoundingMode.Down.divide 100 51 = 1 := by
  refine ⟨rfl, ?_, (upDivide_bounds a b ha hb).1, (upDivide_bounds a b ha hb).2,
    by decide, by decide, by decide, by decide, by decide⟩
  unfold RoundingMode.divide
  simp only
  by_cases hdvd : s ∣ d
  · rw [if_pos hdvd, if_neg (by simp [Nat.div_mul_cancel hdvd])]
  · rw [if_neg hdvd, if_pos]
    simpa [Nat.dvd_iff_div_mul_eq] using hdvd

/-- C7 witness: the theorem applied at d = 10, s = 3, a = 7, b = 2. -/
theorem C7_rounding_divide_witness :
    RoundingMode.Down.divide 10 3 = 10 / 3 ∧
    RoundingMode.Up.divide 10 3 = (if 3 ∣ 10 then 10 / 3 else 10 / 3 + 1) ∧
    7 ≤ RoundingMode.Up.divide 7 2 * 2 ∧
    (RoundingMode.Up.divide 7 2 - 1) * 2 < 7 ∧
    RoundingMode.Up.divide 8 5 = 2 ∧
    RoundingMode.Up.divide 100 49 = 3 ∧
    RoundingMode.Up.divide 10 2 = 5 ∧
    RoundingMode.Down.divide 8 5 = 1 ∧
    RoundingMode.Down.divide 100 51 = 1 :=
  C7_rounding_divide 10 3 7 2 (by decide) (by decide) (by decide)

/-- C9: classifying a text through ParsedText.parse and mapping back with
to_text_bytes returns exactly the original bytes, for every text. -/
theorem C9_parse_preserves_bytes (t : Text) :
    (ParsedText.parse t).to_text_bytes = t.bytes := by
  unfold ParsedText.parse
  split_ifs with h1 h2 h3 h4 <;> simp_all [ParsedText.to_text_bytes]

/-- C10: read_null_terminated on a stream whose next byte is the null
terminator succeeds with an empty text, while every write of an empty text
fails with Invalid.Content(Text, Min 1) under every long_names flag. -/
theorem C10_empty_text_reader_writer_asymmetry :
    (∀ rest : List Nat, Text.read_null_terminated (0 :: rest) = .ok (⟨[]⟩, rest)) ∧
    (∀ long_names : Option Bool,
      Text.write_unsized_bytes [] long_names = .error (Invalid.Content .Text (.Min 1))) := by
  constructor
  · intro rest
    simp [Text.read_null_terminated]
  · intro long_names
    match long_names with
    | none => rfl
    | some false => rfl
    | some true => rfl

/-- C3: the claim fails on the code. EnvironmentMap.byte_size and
LineOrder.byte_size report the size of a u32, which is 4, while the
corresponding write emits a single u8 byte. -/
theorem C3_byte_size_write_mismatch :
    EnvironmentMap.byte_size .LatitudeLongitude = 4 ∧
    (EnvironmentMap.write .LatitudeLongitude).length = 1 ∧
    LineOrder.byte_size .IncreasingY = 4 ∧
    (LineOrder.write .IncreasingY).length = 1 ∧
    (4 : Nat) ≠ 1 := by
  decide

/-- C2: the claim fails on the code. KeyCode.write emits only six i32 fields
(24 bytes), omitting perforations_per_frame, while KeyCode.read consumes
seven i32 fields, so reading back the written bytes runs out of stream. -/
theorem C2_keycode_roundtrip_fails :
    (KeyCode.write ⟨1, 2, 3, 4, 5, 6, 7⟩).length = 24 ∧
    KeyCode.read (KeyCode.write ⟨1, 2, 3, 4, 5, 6, 7⟩) = .error .Io := by
  exact ⟨rfl, rfl⟩

/-- C1: the claim fails on the code. The version parser masks the word with
0x000F, keeping only the low 4 bits (its own comment says the low 8 bits):
on word 255 it returns version 15, not 255. The four feature flags are read
from bits 9 to 12 as the claim states. -/
theorem C1_version_masks_four_bits :
    (version 255).file_format_version = 15 ∧
    255 % 256 = 255 ∧
    (15 : Nat) ≠ 255 ∧
    version 7680 = ⟨0, true, true, true, true⟩ ∧
    version 255 = ⟨15, false, false, false, false⟩ := by
  decide

/-- C8: writing a text of 32 bytes with long_names = false fails with
Max 31, a text of 256 bytes with long_names = true fails with Max 255, the
empty text always fails with Min 1, and a text within the limits is written
unchanged. -/
theorem C8_text_length_enforcement (b32 b256 bok : List Nat) (long_names : Option Bool)
    (h32 : b32.length = 32) (h256 : b256.length = 256)
    (hmin : 1 ≤ bok.length)
    (hshort : long_names = some false → bok.length ≤ 31)
    (hlong : long_names = some true → bok.length ≤ 255) :
    Text.write_unsized_bytes b32 (some false) = .error (Invalid.Content .Text (.Max 31)) ∧
    Text.write_unsized_bytes b256 (some true) = .error (Invalid.Content .Text (.Max 255)) ∧
    (∀ ln : Option Bool, Text.write_unsized_bytes [] ln = .error (Invalid.Content .Text (.Min 1))) ∧
    Text.write_unsized_bytes bok long_names = .ok bok := by
  have hne32 : b32.isEmpty = false := by
    cases b32 with
    | nil => simp at h32
    | cons a l => rfl
  have hne256 : b256.isEmpty = false := by
    cases b256 with
    | nil => simp at h256
    | cons a l => rfl
  have hneok : bok.isEmpty = false := by
    cases bok with
    | nil => simp at hmin
    | cons a l => rfl
  refine ⟨?_, ?_, ?_, ?_⟩
  · simp [Text.write_unsized_bytes, Text.validate_bytes, hne32, h32]
  · simp [Text.write_unsized_bytes, Text.validate_bytes, hne256, h256]
  · intro ln
    match ln with
    | none => rfl
    | some false => rfl
    | some true => rfl
  · match hln : long_names with
    | none =>
      simp [Text.write_unsized_bytes, Text.validate_bytes, hneok]
    | some false =>
      have hlt : bok.length < 32 := by have := hshort rfl; omega
      simp [Text.write_unsized_bytes, Text.validate_bytes, hneok, hlt]
    | some true =>
      have hlt : bok.length < 256 := by have := hlong rfl; omega
      simp [Text.write_unsized_bytes, Text.validate_bytes, hneok, hlt]

/-- C8 witness: the theorem applied at a 32-byte text, a 256-byte text, the
one-byte text [104] and long_names = some false. -/
theorem C8_text_length_enforcement_witness :
    Text.write_unsized_bytes (List.replicate 32 97) (some false)
      = .error (Invalid.Content .Text (.Max 31)) ∧
    Text.write_unsized_bytes (List.replicate 256 97) (some true)
      = .error (Invalid.Content .Text (.Max 255)) ∧
    (∀ ln : Option Bool, Text.write_unsized_bytes [] ln = .error (Invalid.Content .Text (.Min 1))) ∧
    Text.write_unsized_bytes [104] (some false) = .ok [104] :=
  C8_text_length_enforcement (List.replicate 32 97) (List.replicate 256 97) [104]
    (some false) (by rw [List.length_replicate]) (by rw [List.length_replicate])
    (by simp) (fun _ => by simp) (fun h => by simp at h)

/-- C6: the mode byte packs level mode plus 16 times rounding mode, giving
0x01, 0x12 and 0x10 on the three named pairs, and write followed by read is
the identity on every tile description (hence on all six mode pairs). -/
theorem C6_tile_description_roundtrip (td : TileDescription)
    (hx : td.x_size < 4294967296) (hy : td.y_size < 4294967296) :
    tileModeByte .MipMap .Down = 0x01 ∧
    tileModeByte .RipMap .Up = 0x12 ∧
    tileModeByte .One .Up = 0x10 ∧
    TileDescription.read (TileDescription.write td) = .ok (td, []) := by
  refine ⟨by decide, by decide, by decide, ?_⟩
  obtain ⟨x, y, lm, rm⟩ := td
  simp only [TileDescription.write, List.append_assoc]
  cases lm <;> cases rm <;>
    simp [TileDescription.read, readU32_writeU32 _ _ hx, readU32_writeU32 _ _ hy,
      writeU8, readU8, tileModeByte, levelModeByte, roundingModeByte,
      levelModeFromByte, roundingModeFromByte]

/-- C6 witness: the theorem applied at the tile description with sizes 31
and 7, MipMap levels and rounding down. -/
theorem C6_tile_description_roundtrip_witness :
    tileModeByte .MipMap .Down = 0x01 ∧
    tileModeByte .RipMap .Up = 0x12 ∧
    tileModeByte .One .Up = 0x10 ∧
    TileDescription.read (TileDescription.write ⟨31, 7, .MipMap, .Down⟩)
      = .ok (⟨31, 7, .MipMap, .Down⟩, []) :=
  C6_tile_description_roundtrip ⟨31, 7, .MipMap, .Down⟩ (by decide) (by decide)

/-- C4 counterexample: with a chunkCount attribute holding -1, the offset
table read does not reject the negative value with an error: the i32 is
cast to usize, wrapping to 2^64 - 1, and Vec::with_capacity then panics
with capacity overflow before any offset is read, even on the empty
stream. -/
theorem C4_negative_chunk_count_panics :
    offset_table headerNegChunkCount [] = .error (.Panic "capacity overflow") := rfl

/-- C4 amended: with a chunkCount attribute of i32 type holding c, the
offset table read uses c cast to usize (wrapping modulo 2^64) as the entry
count: a non-negative c reads c offsets, while a negative c is not rejected
by any check: it wraps to 2^64 + c entries, which makes Vec::with_capacity
panic with capacity overflow before any offset is read; a chunkCount
attribute of any other type fails with Invalid chunkCount type. -/
theorem C4_chunk_count_entry_count (h : Header) (s : List Nat) (i : Nat) (c : Int)
    (hi : h.indices.chunk_count = some i)
    (hrep : -2147483648 ≤ c ∧ c < 2147483648) :
    ((h.attributes.getD i default).value = .I32 c →
      (0 ≤ c → offset_table h s = read_u64s c.toNat s) ∧
      (c < 0 → intAsUSize c = (18446744073709551616 + c).toNat ∧
        offset_table h s = .error (.Panic "capacity overflow"))) ∧
    ((∀ c0 : Int, (h.attributes.getD i default).value ≠ .I32 c0) →
      offset_table h s = .error (.Invalid "chunkCount type")) := by
  constructor
  · intro hv
    have h0 : offset_table h s =
        (if 9223372036854775807 < 8 * intAsUSize c then
          Except.error (DecodeError.Panic "capacity overflow")
        else read_u64s (intAsUSize c) s) := by
      unfold offset_table
      simp only [hi, hv]
    refine ⟨?_, ?_⟩
    · intro hc
      have h1 : intAsUSize c = c.toNat := by
        unfold intAsUSize
        omega
      rw [h0, h1, if_neg (by omega)]
    · intro hc
      have h1 : intAsUSize c = (18446744073709551616 + c).toNat := by
        unfold intAsUSize
        omega
      refine ⟨h1, ?_⟩
      rw [h0, if_pos (by omega)]
  · intro hne
    have hgen : ∀ v : AttributeValue,
        (∀ c0 : Int, v ≠ AttributeValue.I32 c0) →
        (match v with
          | AttributeValue.I32 chunk_count =>
            let entry_count := intAsUSize chunk_count
            if 9223372036854775807 < 8 * entry_count then
              Except.error (DecodeError.Panic "capacity overflow")
            else read_u64s entry_count s
          | _ => Except.error (DecodeError.Invalid "chunkCount type"))
          = Except.error (DecodeError.Invalid "chunkCount type") := by
      intro v hv
      cases v <;> first | exact absurd rfl (hv _) | rfl
    have h0 : offset_table h s =
        (match (h.attributes.getD i default).value with
          | AttributeValue.I32 chunk_count =>
            let entry_count := intAsUSize chunk_count
            if 9223372036854775807 < 8 * entry_count then
              Except.error (DecodeError.Panic "capacity overflow")
            else read_u64s entry_count s
          | _ => Except.error (DecodeError.Invalid "chunkCount type")) := by
      unfold offset_table
      rw [hi]
    rw [h0]
    exact hgen _ hne

/-- C4 witness: the amended theorem applied at a header whose chunkCount
attribute holds the i32 value 2, over a 16-byte stream. -/
theorem C4_chunk_count_entry_count_witness :
    ((headerChunkCountTwo.attributes.getD 0 default).value = .I32 2 →
      ((0 : Int) ≤ 2 → offset_table headerChunkCountTwo (List.replicate 16 0)
        = read_u64s (Int.toNat 2) (List.replicate 16 0)) ∧
      ((2 : Int) < 0 → intAsUSize 2 = ((18446744073709551616 : Int) + 2).toNat ∧
        offset_table headerChunkCountTwo (List.replicate 16 0)
          = .error (.Panic "capacity overflow"))) ∧
    ((∀ c0 : Int, (headerChunkCountTwo.attributes.getD 0 default).value ≠ .I32 c0) →
      offset_table headerChunkCountTwo (List.replicate 16 0)
        = .error (.Invalid "chunkCount type")) :=
  C4_chunk_count_entry_count headerChunkCountTwo (List.replicate 16 0) 0 2 rfl (by decide)

/-- C5 counterexample: on a single-part header without chunkCount (10 by 10
data window, 4 by 4 single-level tiles, no compression, so the formula of
the claim would give 9 offsets) the reader does not compute anything: it
fails with NotSupported, and in particular does not return the 9 offsets
the claim predicts. -/
theorem C5_legacy_count_not_computed :
    offset_table headerNoChunkCount (List.replicate 80 0) =
      .error (.NotSupported
        "computing chunk count by considering data_window, tiles, and compression") ∧
    offset_table headerNoChunkCount (List.replicate 80 0) ≠
      .ok (List.replicate 9 0, List.replicate 8 0) := by
  have h1 : offset_table headerNoChunkCount (List.replicate 80 0) =
      .error (.NotSupported
        "computing chunk count by considering data_window, tiles, and compression") := rfl
  refine ⟨h1, ?_⟩
  rw [h1]
  simp

/-- C5 amended: when a header has no chunkCount attribute, the offset table
reader checks that dataWindow has box2i type, that tiles is present with
tiledesc type and that compression has compression type, and then always
fails with the NotSupported error: the legacy scanline and tile count
formulas are not evaluated and no offsets are read. -/
theorem C5_no_chunk_count_not_supported (h : Header) (s : List Nat) (ti : Nat)
    (b : I32Box2) (td : TileDescription) (cp : Compression)
    (hcc : h.indices.chunk_count = none)
    (hdw : (h.attributes.getD h.indices.data_window default).value = .I32Box2 b)
    (hti : h.indices.tiles = some ti)
    (htd : (h.attributes.getD ti default).value = .TileDescription td)
    (hcp : (h.attributes.getD h.indices.compression default).value = .Compression cp) :
    offset_table h s =
      .error (.NotSupported
        "computing chunk count by considering data_window, tiles, and compression") := by
  unfold offset_table
  simp only [hcc, hdw, hti, htd, hcp]

/-- C5 witness: the amended theorem applied at the concrete single-part
header over the empty stream. -/
theorem C5_no_chunk_count_not_supported_witness :
    offset_table headerNoChunkCount [] =
      .error (.NotSupported
        "computing chunk count by considering data_window, tiles, and compression") :=
  C5_no_chunk_count_not_supported headerNoChunkCount [] 1 ⟨0, 0, 9, 9⟩
    ⟨4, 4, .One, .Down⟩ .None rfl rfl rfl rfl rfl

end Exr
